import Mathlib

/-!
Verification of the CacheSpace viewport cache engine (qt-items, file
src/cache/space/CacheSpace.cpp and its header).  The CacheSpace class is
embedded shallowly: Qt geometry types become integer records, the Qt signal
emissions become an explicit event list returned by each operation, and the
mutable object state becomes an explicit state record threaded through the
operations.  Debug assertions (Q_ASSERT) are modelled as an event recording
that the assertion condition failed.  Parts of the engine that live outside
the given sources (the abstract subclass operations, the CacheView tree and
the CacheItem accessors) are modelled from the specification and marked as
such in their doc comments.
-/

/-- Integer point, embedding QPoint (two int coordinates). -/
structure QPoint where
  x : Int
  y : Int
deriving DecidableEq, Repr

/-- Integer size, embedding QSize (width and height as ints). -/
structure QSize where
  w : Int
  h : Int
deriving DecidableEq, Repr

/-- Integer rectangle, embedding the internal representation of QRect:
left, top, right, bottom coordinates (x2 and y2 are inclusive, as in Qt). -/
structure QRect where
  x1 : Int
  y1 : Int
  x2 : Int
  y2 : Int
deriving DecidableEq, Repr

/-- Componentwise addition of points, embedding QPoint operator plus. -/
def QPoint.add (a b : QPoint) : QPoint := ⟨a.x + b.x, a.y + b.y⟩

/-- Componentwise subtraction of points, embedding QPoint operator minus. -/
def QPoint.sub (a b : QPoint) : QPoint := ⟨a.x - b.x, a.y - b.y⟩

instance : Add QPoint := ⟨QPoint.add⟩
instance : Sub QPoint := ⟨QPoint.sub⟩

/-- Componentwise addition of sizes, embedding QSize operator plus. -/
def QSize.add (a b : QSize) : QSize := ⟨a.w + b.w, a.h + b.h⟩

/-- Componentwise subtraction of sizes, embedding QSize operator minus. -/
def QSize.sub (a b : QSize) : QSize := ⟨a.w - b.w, a.h - b.h⟩

instance : Add QSize := ⟨QSize.add⟩
instance : Sub QSize := ⟨QSize.sub⟩

/-- Top left corner of a rectangle, embedding QRect topLeft. -/
def QRect.topLeft (r : QRect) : QPoint := ⟨r.x1, r.y1⟩

/-- Size of a rectangle, embedding QRect size: width is x2 - x1 + 1 and
height is y2 - y1 + 1, following the inclusive-coordinate convention. -/
def QRect.size (r : QRect) : QSize := ⟨r.x2 - r.x1 + 1, r.y2 - r.y1 + 1⟩

/-- Normalization of a rectangle, embedding the Qt 5 QRect normalized
member: each axis is swapped exactly when the far coordinate is strictly
less than the near coordinate minus one. -/
def QRect.normalized (r : QRect) : QRect :=
  let xs : Int × Int := if r.x2 < r.x1 - 1 then (r.x2, r.x1) else (r.x1, r.x2)
  let ys : Int × Int := if r.y2 < r.y1 - 1 then (r.y2, r.y1) else (r.y1, r.y2)
  ⟨xs.1, ys.1, xs.2, ys.2⟩

/-- Modelled from the spec: the ChangeReason bitmask bit for SpaceStructure.
The enumerators themselves are declared outside the given sources; the spec
fixes the distinct bits and their precedence but leaves the numeric values
implementation defined, so concrete distinct bits are chosen here. -/
def ChangeReasonSpaceStructure : Nat := 1

/-- Modelled from the spec: the ChangeReason bit for SpaceHint. -/
def ChangeReasonSpaceHint : Nat := 2

/-- Modelled from the spec: the ChangeReason bit for SpaceItemsStructure. -/
def ChangeReasonSpaceItemsStructure : Nat := 4

/-- Modelled from the spec: the ChangeReason bit for SpaceItemsContent. -/
def ChangeReasonSpaceItemsContent : Nat := 8

/-- Modelled from the spec: the ChangeReason bit for CacheContent, the
self-emitted marker bit. -/
def ChangeReasonCacheContent : Nat := 16

/-- Observable effects of a CacheSpace operation: a cacheChanged signal
emission carrying a ChangeReason bitmask, a preDraw signal emission, or a
failed debug assertion (Q_ASSERT whose condition evaluated to false). -/
inductive Event where
  | cacheChanged : Nat → Event
  | preDraw : Event
  | assertFail : Event
deriving DecidableEq, Repr

mutual
/-- Modelled from the spec: a CacheView is a composable renderable tree
node with arbitrary fan-out (the CacheView class is declared outside the
given sources).  Each node carries a numeric tag standing for its renderer
identity. -/
inductive CacheView : Type where
  | node : Nat → CacheViewChildren → CacheView

/-- Children list of a CacheView node, as a mutually defined list type. -/
inductive CacheViewChildren : Type where
  | nil : CacheViewChildren
  | cons : CacheView → CacheViewChildren → CacheViewChildren
end

/-- Tag of the root node of a view tree. -/
def CacheView.rootId : CacheView → Nat
  | .node i _ => i

/-- Modelled from the spec: a CacheItem is the materialized item, holding
an identity, the lazily built CacheView root (viewBuilt tells whether the
cacheView accessor returns a tree or null), the template tree the factory
would build for it, the mask of the factory whose schema the item carries,
and a flag telling whether painting this item raises an exception (the
spec allows painter and factory to raise). -/
structure CacheItem where
  ident : Nat
  viewBuilt : Bool
  viewTemplate : CacheView
  schemaMask : Nat
  throwsOnDraw : Bool

/-- Modelled from the spec: the cacheView accessor of CacheItem returns
the built view root or null. -/
def CacheItem.cacheView (it : CacheItem) : Option CacheView :=
  if it.viewBuilt then some it.viewTemplate else none

/-- Modelled from the spec: invalidateCacheView discards the built view
tree of the item. -/
def CacheItem.invalidateCacheView (it : CacheItem) : CacheItem :=
  { it with viewBuilt := false }

/-- Modelled from the spec: validateCacheView materializes the view tree
if absent. -/
def CacheItem.validateCacheView (it : CacheItem) : CacheItem :=
  { it with viewBuilt := true }

/-- Modelled from the spec: updateSchema of CacheItemFactory rewires an
existing item to the schema of the factory (identified by the mask the
factory was created with) without discarding identity or geometry. -/
def CacheItemFactory.updateSchema (factoryMask : Nat) (it : CacheItem) : CacheItem :=
  { it with schemaMask := factoryMask }

/-- State of a CacheSpace object: the member variables of the class.  The
cache items factory is represented by the mask it was created with (the
factory is stateful over the current ViewApplicationMask); the abstract
subclass item storage is represented as a list of cache items; the draw
proxy member is represented by its presence. -/
structure CacheSpaceState where
  viewApplicationMask : Nat
  factoryMask : Nat
  window : QRect
  scrollOffset : QPoint
  scrollDelta : QPoint
  sizeDelta : QSize
  itemsCacheInvalid : Bool
  cacheIsInUse : Bool
  hasProxy : Bool
  items : List CacheItem

/-- Events produced by a Q_ASSERT on the negated cacheIsInUse guard: the
assertion fails exactly when the guard is set. -/
def guardAssertEvents (s : CacheSpaceState) : List Event :=
  if s.cacheIsInUse then [Event.assertFail] else []

namespace CacheSpace

/-- Accessor viewApplicationMask from the header: returns the stored mask. -/
def viewApplicationMask (s : CacheSpaceState) : Nat :=
  s.viewApplicationMask

/-- Accessor hasDrawProxy from the header: presence of the proxy member. -/
def hasDrawProxy (s : CacheSpaceState) : Bool :=
  s.hasProxy

/-- Modelled from the spec: setDrawProxy registers the draw interception
callable (declared in the header; its definition is outside the given
sources).  Only the presence of the proxy is tracked. -/
def setDrawProxy (s : CacheSpaceState) : CacheSpaceState :=
  { s with hasProxy := true }

/-- Embedding of CacheSpace invalidateItemsCache: asserts the guard is not
set, marks the items cache invalid and emits cacheChanged with the
CacheContent reason. -/
def invalidateItemsCache (s : CacheSpaceState) : CacheSpaceState × List Event :=
  ({ s with itemsCacheInvalid := true },
   guardAssertEvents s ++ [Event.cacheChanged ChangeReasonCacheContent])

/-- Embedding of CacheSpace clearItemsCache: asserts the guard is not set
and delegates to the subclass clearItemsCacheImpl, modelled from the spec
as discarding every cached item. -/
def clearItemsCache (s : CacheSpaceState) : CacheSpaceState × List Event :=
  ({ s with items := [] }, guardAssertEvents s)

/-- Embedding of CacheSpace clear: clears the items cache then invalidates
it (which emits cacheChanged CacheContent). -/
def clear (s : CacheSpaceState) : CacheSpaceState × List Event :=
  let r1 := clearItemsCache s
  let r2 := invalidateItemsCache r1.1
  (r2.1, r1.2 ++ r2.2)

/-- Embedding of CacheSpace updateCacheItemsFactory: recreates the factory
from the currently stored mask, then for each cached item invalidates its
cache view and updates its schema through the new factory. -/
def updateCacheItemsFactory (s : CacheSpaceState) : CacheSpaceState :=
  { s with factoryMask := s.viewApplicationMask,
           items := s.items.map (fun it =>
             CacheItemFactory.updateSchema s.viewApplicationMask
               (CacheItem.invalidateCacheView it)) }

/-- Embedding of CacheSpace setViewApplicationMask: when the argument
differs from the stored mask, the factory is rebuilt and cacheChanged is
emitted with the CacheContent reason.  The source never assigns the new
mask to the member variable. -/
def setViewApplicationMask (s : CacheSpaceState) (mask : Nat) :
    CacheSpaceState × List Event :=
  if s.viewApplicationMask ≠ mask then
    (updateCacheItemsFactory s, [Event.cacheChanged ChangeReasonCacheContent])
  else
    (s, [])

/-- Embedding of CacheSpace setWindow: returns unchanged when the raw
argument equals the stored window; otherwise normalizes the argument,
accumulates the top left displacement into scrollDelta and the size change
into sizeDelta, stores the normalized window and invalidates the cache. -/
def setWindow (s : CacheSpaceState) (window : QRect) :
    CacheSpaceState × List Event :=
  if s.window = window then (s, [])
  else
    let w := window.normalized
    let delta := w.topLeft - s.window.topLeft
    invalidateItemsCache
      { s with scrollDelta := s.scrollDelta + delta,
               sizeDelta := s.sizeDelta + (w.size - s.window.size),
               window := w }

/-- Embedding of CacheSpace setScrollOffset: returns unchanged when the
argument equals the stored offset; otherwise accumulates the difference of
the old offset minus the new one into scrollDelta, stores the new offset
and invalidates the cache. -/
def setScrollOffset (s : CacheSpaceState) (scrollOffset : QPoint) :
    CacheSpaceState × List Event :=
  if s.scrollOffset = scrollOffset then (s, [])
  else
    invalidateItemsCache
      { s with scrollDelta := s.scrollDelta + (s.scrollOffset - scrollOffset),
               scrollOffset := scrollOffset }

/-- Embedding of CacheSpace window2Space: subtracts the window top left
point and adds the scroll offset. -/
def window2Space (s : CacheSpaceState) (windowPoint : QPoint) : QPoint :=
  windowPoint - s.window.topLeft + s.scrollOffset

/-- Embedding of CacheSpace space2Window: subtracts the scroll offset and
adds the window top left point. -/
def space2Window (s : CacheSpaceState) (spacePoint : QPoint) : QPoint :=
  spacePoint - s.scrollOffset + s.window.topLeft

/-- Embedding of CacheSpace onSpaceChanged: classifies the incoming
ChangeReason bitmask.  A SpaceStructure bit clears the cache; otherwise a
SpaceHint or SpaceItemsStructure bit rebuilds the factory and forwards the
reason joined with CacheContent; otherwise a SpaceItemsContent bit only
forwards; otherwise nothing happens. -/
def onSpaceChanged (s : CacheSpaceState) (reason : Nat) :
    CacheSpaceState × List Event :=
  if reason &&& ChangeReasonSpaceStructure ≠ 0 then
    clear s
  else if reason &&& (ChangeReasonSpaceHint ||| ChangeReasonSpaceItemsStructure) ≠ 0 then
    (updateCacheItemsFactory s,
     [Event.cacheChanged (reason ||| ChangeReasonCacheContent)])
  else if reason &&& ChangeReasonSpaceItemsContent ≠ 0 then
    (s, [Event.cacheChanged (reason ||| ChangeReasonCacheContent)])
  else
    (s, [])

/-- Embedding of CacheSpace validateItemsCache: returns unchanged when the
cache is valid, else delegates to the subclass validateItemsCacheImpl,
modelled from the spec as clearing the invalid flag and resetting the two
accumulated deltas to zero (the item set update strategy is subclass
defined and abstracted as keeping the current items). -/
def validateItemsCache (s : CacheSpaceState) : CacheSpaceState :=
  if s.itemsCacheInvalid = false then s
  else { s with itemsCacheInvalid := false,
                scrollDelta := ⟨0, 0⟩,
                sizeDelta := ⟨0, 0⟩ }

end CacheSpace

/-- Modelled from the spec: the subclass forEachCacheItemImpl iterates the
cached items in order, stopping as soon as the visitor returns false, and
returns whether the iteration completed.  The visitor threads an explicit
state of its own, standing for the mutable environment a C++ visitor
closure captures. -/
def forEachCacheItemStateful {σ : Type} (visitor : σ → CacheItem → Bool × σ) :
    σ → List CacheItem → Bool × σ
  | s, [] => (true, s)
  | s, it :: rest =>
    match visitor s it with
    | (false, s1) => (false, s1)
    | (true, s1) => forEachCacheItemStateful visitor s1 rest

mutual
/-- Modelled from the spec: CacheView forEachCacheView enumerates the view
tree in preorder (the node itself, then its children left to right) and
returns early as soon as the visitor returns false. -/
def CacheView.forEachCacheView {σ : Type} (visitor : σ → CacheView → Bool × σ)
    (s : σ) : CacheView → Bool × σ
  | .node i cs =>
    match visitor s (.node i cs) with
    | (false, s1) => (false, s1)
    | (true, s1) => CacheView.forEachChildren visitor s1 cs

/-- Preorder enumeration of a children list, continuing the traversal of
CacheView forEachCacheView. -/
def CacheView.forEachChildren {σ : Type} (visitor : σ → CacheView → Bool × σ)
    (s : σ) : CacheViewChildren → Bool × σ
  | .nil => (true, s)
  | .cons c cs =>
    match CacheView.forEachCacheView visitor s c with
    | (false, s1) => (false, s1)
    | (true, s1) => CacheView.forEachChildren visitor s1 cs
end

/-- Embedding of the CacheSpace IterateInfo record: the visitor argument of
forEachCacheView.  The cacheItem and cacheView fields start as null. -/
structure IterateInfo where
  cacheItem : Option CacheItem
  cacheItemIndex : Nat
  cacheView : Option CacheView
  cacheViewIndex : Nat

namespace CacheSpace

/-- Embedding of CacheSpace forEachCacheItem: asserts the visitor is
callable and delegates to the subclass implementation over the stored
items.  The guard flag is not touched. -/
def forEachCacheItem {σ : Type} (s : CacheSpaceState)
    (visitor : σ → CacheItem → Bool × σ) (init : σ) : Bool × σ :=
  forEachCacheItemStateful visitor init s.items

/-- Embedding of the inner lambda of CacheSpace forEachCacheView: stores
the current view into the info record, calls the outer visitor, then
increments cacheViewIndex, and forwards the visitor verdict. -/
def viewVisitorWrapped {σ : Type} (visitor : σ → IterateInfo → Bool × σ) :
    (IterateInfo × σ) → CacheView → Bool × (IterateInfo × σ) :=
  fun q cv =>
    let info := { q.1 with cacheView := some cv }
    let r := visitor q.2 info
    (r.1, ({ info with cacheViewIndex := info.cacheViewIndex + 1 }, r.2))

/-- Embedding of the outer lambda of CacheSpace forEachCacheView: stores
the current item into the info record, resets cacheViewIndex to zero,
walks the view tree of the item when one is built, then increments
cacheItemIndex and forwards the result. -/
def itemVisitorWrapped {σ : Type} (visitor : σ → IterateInfo → Bool × σ) :
    (IterateInfo × σ) → CacheItem → Bool × (IterateInfo × σ) :=
  fun p item =>
    let info := { p.1 with cacheItem := some item, cacheViewIndex := 0 }
    let r :=
      match CacheItem.cacheView item with
      | none => (true, (info, p.2))
      | some root =>
        CacheView.forEachCacheView (viewVisitorWrapped visitor) (info, p.2) root
    (r.1, ({ r.2.1 with cacheItemIndex := r.2.1.cacheItemIndex + 1 }, r.2.2))

/-- Embedding of CacheSpace forEachCacheView: iterates the cached items
with a fresh IterateInfo record threaded through the wrapped visitors and
returns the overall verdict together with the final visitor state. -/
def forEachCacheView {σ : Type} (s : CacheSpaceState)
    (visitor : σ → IterateInfo → Bool × σ) (init : σ) : Bool × σ :=
  let r := forEachCacheItem s (itemVisitorWrapped visitor)
    (⟨none, 0, none, 0⟩, init)
  (r.1, r.2.2)

end CacheSpace

/-- Painter operations recorded while drawing, embedding the QPainter calls
the draw pipeline performs (save, clip to a rectangle, paint one cache
item, restore). -/
inductive PaintOp where
  | save : PaintOp
  | setClipRect : QRect → PaintOp
  | drawItem : Nat → PaintOp
  | restore : PaintOp
deriving DecidableEq, Repr

/-- Whether a painter operation is a save. -/
def PaintOp.isSave : PaintOp → Bool
  | .save => true
  | _ => false

/-- Whether a painter operation is a restore. -/
def PaintOp.isRestore : PaintOp → Bool
  | .restore => true
  | _ => false

/-- Painting the cached items in order: each item either paints (recording
a drawItem operation) or raises an exception, which aborts the remaining
items.  The boolean tells whether all items painted without raising. -/
def drawItemsOps : List CacheItem → List PaintOp × Bool
  | [] => ([], true)
  | it :: rest =>
    if it.throwsOnDraw then ([], false)
    else
      let r := drawItemsOps rest
      (PaintOp.drawItem it.ident :: r.1, r.2)

/-- Result of the draw pipeline: the post state (the in-use guard is a
scoped acquisition and is restored even when an exception propagates), the
emitted signals, the recorded painter operations, whether the draw proxy
was invoked, and whether the pipeline completed without an exception. -/
structure DrawResult where
  state : CacheSpaceState
  events : List Event
  trace : List PaintOp
  proxyInvoked : Bool
  ok : Bool

namespace CacheSpace

/-- Embedding of CacheSpace draw from the source: validates the items
cache, sets the in-use guard for the scope, validates the cache view of
every item, emits preDraw, saves the painter, clips to the window, paints
every item, and restores the painter.  The stored draw proxy member is
never consulted, so proxyInvoked is false; when painting an item raises,
the exception propagates before the painter restore is reached, while the
scoped guard still unwinds to its previous value. -/
def draw (s : CacheSpaceState) : DrawResult :=
  let s1 := validateItemsCache s
  let s2 := { s1 with cacheIsInUse := true,
                      items := s1.items.map CacheItem.validateCacheView }
  let r := drawItemsOps s2.items
  { state := { s2 with cacheIsInUse := s.cacheIsInUse }
    events := [Event.preDraw]
    trace := PaintOp.save :: PaintOp.setClipRect s2.window ::
      (r.1 ++ if r.2 then [PaintOp.restore] else [])
    proxyInvoked := false
    ok := r.2 }

end CacheSpace

mutual
/-- Specification-side description of the traversal order of a view tree:
the preorder listing of its nodes (the node itself, then the preorder of
each child in order). -/
def CacheView.preorder : CacheView → List CacheView
  | .node i cs => CacheView.node i cs :: CacheViewChildren.preorderAll cs

/-- Preorder listing of every node below a children list. -/
def CacheViewChildren.preorderAll : CacheViewChildren → List CacheView
  | .nil => []
  | .cons c cs => CacheView.preorder c ++ CacheViewChildren.preorderAll cs
end

/-- Specification-side description of the index bookkeeping of the
forEachCacheView iteration: the views of one cache item, listed in
traversal order, tagged with the constant item index k and consecutive
view indices starting at j. -/
def tagViews (k : Nat) : Nat → List CacheView → List (Nat × Nat × Nat)
  | _, [] => []
  | j, v :: vs => (k, j, v.rootId) :: tagViews k (j + 1) vs

/-- Specification-side description of a full forEachCacheView traversal
starting at item index k: every item contributes the tagged preorder of
its built view tree (nothing when no view is built), with the view index
restarting at zero for each item and the item index advancing by one for
every item, built view or not. -/
def expectedViewLog : Nat → List CacheItem → List (Nat × Nat × Nat)
  | _, [] => []
  | k, it :: rest =>
    (match CacheItem.cacheView it with
     | none => []
     | some root => tagViews k 0 root.preorder) ++ expectedViewLog (k + 1) rest

/-- Last element of a list of views, with a default used when the list is
empty; describes the cacheView field left in the info record after a
traversal segment. -/
def lastView (o : Option CacheView) : List CacheView → Option CacheView
  | [] => o
  | v :: vs => lastView (some v) vs

/-- Root tag of the view stored in an info record, with zero for null. -/
def infoViewId (info : IterateInfo) : Nat :=
  match info.cacheView with
  | none => 0
  | some v => v.rootId

/-- Visitor recording, for every visited view, the item index, the view
index and the view tag, and always continuing. -/
def logVisitor (acc : List (Nat × Nat × Nat)) (info : IterateInfo) :
    Bool × List (Nat × Nat × Nat) :=
  (true, acc ++ [(info.cacheItemIndex, info.cacheViewIndex, infoViewId info)])

/-- Visitor counting its invocations and refusing to continue on the very
first one. -/
def stopVisitor (n : Nat) (_ : IterateInfo) : Bool × Nat :=
  (false, n + 1)

/-- Visitor that, from inside the iteration, calls clear on the cache
space it iterates (the re-entrant mutation the specification declares a
contract violation), accumulating the state and the events clear emits. -/
def clearingVisitor :
    (CacheSpaceState × List Event) → CacheItem → Bool × (CacheSpaceState × List Event) :=
  fun p _ =>
    let r := CacheSpace.clear p.1
    (true, (r.1, p.2 ++ r.2))

/-- A leaf view tree carrying one tag. -/
def leafView (i : Nat) : CacheView :=
  CacheView.node i CacheViewChildren.nil

/-- A three node view tree: a root with two leaf children. -/
def sampleTree : CacheView :=
  CacheView.node 10 (CacheViewChildren.cons (leafView 11)
    (CacheViewChildren.cons (leafView 12) CacheViewChildren.nil))

/-- A cache item with no built view tree. -/
def itemNoView : CacheItem :=
  ⟨0, false, leafView 7, 0, false⟩

/-- A cache item with a built three node view tree. -/
def itemWithTree : CacheItem :=
  ⟨1, true, sampleTree, 0, false⟩

/-- A cache item whose draw raises an exception. -/
def itemThrowing : CacheItem :=
  ⟨2, false, leafView 8, 0, true⟩

/-- A concrete quiescent cache space state: valid cache, guard not set, no
proxy, two cached items. -/
def exampleState : CacheSpaceState :=
  { viewApplicationMask := 0
    factoryMask := 0
    window := ⟨0, 0, 4, 4⟩
    scrollOffset := ⟨0, 0⟩
    scrollDelta := ⟨0, 0⟩
    sizeDelta := ⟨0, 0⟩
    itemsCacheInvalid := false
    cacheIsInUse := false
    hasProxy := false
    items := [itemNoView, itemWithTree] }

/-- The example state with one item whose draw raises. -/
def stateThrowingItem : CacheSpaceState :=
  { exampleState with items := [itemWithTree, itemThrowing] }

/-- The example state with a draw proxy registered through setDrawProxy. -/
def stateProxy : CacheSpaceState :=
  CacheSpace.setDrawProxy exampleState

/-- The example state with the in-use guard set, as it is inside draw,
tryActivateControllers or tooltipByPoint. -/
def stateInUse : CacheSpaceState :=
  { exampleState with cacheIsInUse := true }

/-- The example state with a single cached item. -/
def stateOneItem : CacheSpaceState :=
  { exampleState with items := [itemNoView] }

/-- A raw rectangle that is not memberwise equal to the window of the
example state but whose normalized form is. -/
def rawRect : QRect :=
  ⟨4, 4, 0, 0⟩

/-! Helper lemmas about the geometry types. -/

/-- Unfolding of point addition. -/
theorem QPoint.add_def (a b : QPoint) : a + b = ⟨a.x + b.x, a.y + b.y⟩ := rfl

/-- Unfolding of point subtraction. -/
theorem QPoint.sub_def (a b : QPoint) : a - b = ⟨a.x - b.x, a.y - b.y⟩ := rfl

/-- Adding the difference of a point with itself is the identity. -/
theorem QPoint.point_add_sub_self (a b : QPoint) : a + (b - b) = a := by
  obtain ⟨ax, ay⟩ := a
  simp [QPoint.add_def, QPoint.sub_def]

/-- Adding the difference of a size with itself is the identity. -/
theorem QSize.size_add_sub_self (a b : QSize) : a + (b - b) = a := by
  obtain ⟨aw, ah⟩ := a
  show QSize.add ⟨aw, ah⟩ (QSize.sub b b) = ⟨aw, ah⟩
  simp [QSize.add, QSize.sub]

/-- C5: the two coordinate conversions are exact mutual inverses on every
state, and they compute exactly the stated formulas: window2Space
subtracts the window top left and adds the scroll offset, space2Window
subtracts the scroll offset and adds the window top left. -/
theorem window2Space_space2Window_inverse (s : CacheSpaceState) (p : QPoint) :
    CacheSpace.space2Window s (CacheSpace.window2Space s p) = p
    ∧ CacheSpace.window2Space s (CacheSpace.space2Window s p) = p
    ∧ CacheSpace.window2Space s p = p - s.window.topLeft + s.scrollOffset
    ∧ CacheSpace.space2Window s p = p - s.scrollOffset + s.window.topLeft := by
  obtain ⟨px, py⟩ := p
  refine ⟨?_, ?_, rfl, rfl⟩ <;>
    simp [CacheSpace.space2Window, CacheSpace.window2Space,
      QPoint.add_def, QPoint.sub_def]

/-- C10: calling setViewApplicationMask with the currently stored mask is
a complete no-op: the state is returned unchanged and no signal is
emitted. -/
theorem setViewApplicationMask_same_mask_noop (s : CacheSpaceState) :
    CacheSpace.setViewApplicationMask s s.viewApplicationMask = (s, []) := by
  simp [CacheSpace.setViewApplicationMask]

/-- C1: the source of setViewApplicationMask never assigns the argument to
the stored mask member: after any call the stored mask is unchanged, and
when the argument differs the factory is rebuilt with the old stored mask
rather than the argument. -/
theorem setViewApplicationMask_never_stores_mask (s : CacheSpaceState) (mask : Nat) :
    ((CacheSpace.setViewApplicationMask s mask).1).viewApplicationMask
        = s.viewApplicationMask
    ∧ ((CacheSpace.setViewApplicationMask s mask).1).factoryMask
        = (if s.viewApplicationMask ≠ mask then s.viewApplicationMask
           else s.factoryMask) := by
  by_cases h : s.viewApplicationMask = mask <;>
    simp [CacheSpace.setViewApplicationMask, CacheSpace.updateCacheItemsFactory, h]

/-- C2: with a draw proxy registered, the public draw still runs the
default pipeline itself (its painter trace starts with the save of the
default sequence and preDraw fires) and never invokes the proxy. -/
theorem draw_ignores_registered_proxy (s : CacheSpaceState)
    (_h : CacheSpace.hasDrawProxy s = true) :
    (CacheSpace.draw s).proxyInvoked = false
    ∧ (CacheSpace.draw s).trace.head? = some PaintOp.save
    ∧ (CacheSpace.draw s).events = [Event.preDraw] :=
  ⟨rfl, rfl, rfl⟩

/-- Witness for C2 at a concrete state with a proxy registered. -/
theorem draw_ignores_registered_proxy_witness :
    (CacheSpace.draw stateProxy).proxyInvoked = false
    ∧ (CacheSpace.draw stateProxy).trace.head? = some PaintOp.save
    ∧ (CacheSpace.draw stateProxy).events = [Event.preDraw] :=
  draw_ignores_registered_proxy stateProxy rfl

/-- C6: setScrollOffset with the current offset is a no-op emitting
nothing; with a different offset q it adds the old offset minus q to
scrollDelta, stores q, marks the items cache invalid and emits
cacheChanged with the CacheContent reason. -/
theorem setScrollOffset_spec (s : CacheSpaceState) (q : QPoint)
    (h : s.cacheIsInUse = false) :
    (s.scrollOffset = q → CacheSpace.setScrollOffset s q = (s, []))
    ∧ (s.scrollOffset ≠ q →
        CacheSpace.setScrollOffset s q =
          ({ s with scrollDelta := s.scrollDelta + (s.scrollOffset - q),
                    scrollOffset := q,
                    itemsCacheInvalid := true },
           [Event.cacheChanged ChangeReasonCacheContent])) := by
  constructor
  · intro he
    simp [CacheSpace.setScrollOffset, he]
  · intro hne
    simp [CacheSpace.setScrollOffset, CacheSpace.invalidateItemsCache,
      guardAssertEvents, hne, h]

/-- Witness for C6 at a concrete state and a concrete new offset. -/
theorem setScrollOffset_spec_witness :
    CacheSpace.setScrollOffset exampleState ⟨1, 2⟩ =
      ({ exampleState with
          scrollDelta := exampleState.scrollDelta + (exampleState.scrollOffset - ⟨1, 2⟩),
          scrollOffset := ⟨1, 2⟩,
          itemsCacheInvalid := true },
       [Event.cacheChanged ChangeReasonCacheContent]) :=
  (setScrollOffset_spec exampleState ⟨1, 2⟩ rfl).2 (by decide)

/-- C9: when the raw argument of setWindow differs from the stored window
but normalizes to it, the no-op test on the raw argument fails, so the
call leaves window, scrollDelta and sizeDelta unchanged yet still marks
the items cache invalid and emits cacheChanged with the CacheContent
reason. -/
theorem setWindow_unnormalized_alias_invalidates (s : CacheSpaceState) (w : QRect)
    (h1 : s.window ≠ w) (h2 : w.normalized = s.window)
    (h3 : s.cacheIsInUse = false) :
    CacheSpace.setWindow s w =
      ({ s with itemsCacheInvalid := true },
       [Event.cacheChanged ChangeReasonCacheContent]) := by
  simp only [CacheSpace.setWindow, CacheSpace.invalidateItemsCache,
    guardAssertEvents, h1, h2, if_neg h1]
  simp [h3, QPoint.point_add_sub_self, QSize.size_add_sub_self]

/-- Witness for C9 at the concrete raw rectangle. -/
theorem setWindow_unnormalized_alias_invalidates_witness :
    CacheSpace.setWindow exampleState rawRect =
      ({ exampleState with itemsCacheInvalid := true },
       [Event.cacheChanged ChangeReasonCacheContent]) :=
  setWindow_unnormalized_alias_invalidates exampleState rawRect
    (by decide) (by decide) rfl

/-- C4: classification of a space change reason bitmask R with the guard
not set.  A SpaceStructure bit clears the cache and emits exactly one
cacheChanged with the CacheContent reason; otherwise a SpaceHint or
SpaceItemsStructure bit rebuilds the factory from the stored mask,
invalidates and re-schemas every cached item and emits cacheChanged with
R joined with CacheContent; otherwise a SpaceItemsContent bit only emits
cacheChanged with R joined with CacheContent; otherwise, including an R
holding only the CacheContent bit, nothing happens at all. -/
theorem onSpaceChanged_classification (s : CacheSpaceState) (reason : Nat)
    (h : s.cacheIsInUse = false) :
    (reason &&& ChangeReasonSpaceStructure ≠ 0 →
      CacheSpace.onSpaceChanged s reason =
        ({ s with items := [], itemsCacheInvalid := true },
         [Event.cacheChanged ChangeReasonCacheContent]))
    ∧ (reason &&& ChangeReasonSpaceStructure = 0 →
       reason &&& (ChangeReasonSpaceHint ||| ChangeReasonSpaceItemsStructure) ≠ 0 →
      CacheSpace.onSpaceChanged s reason =
        ({ s with factoryMask := s.viewApplicationMask,
                  items := s.items.map (fun it =>
                    { it with viewBuilt := false,
                              schemaMask := s.viewApplicationMask }) },
         [Event.cacheChanged (reason ||| ChangeReasonCacheContent)]))
    ∧ (reason &&& ChangeReasonSpaceStructure = 0 →
       reason &&& (ChangeReasonSpaceHint ||| ChangeReasonSpaceItemsStructure) = 0 →
       reason &&& ChangeReasonSpaceItemsContent ≠ 0 →
      CacheSpace.onSpaceChanged s reason =
        (s, [Event.cacheChanged (reason ||| ChangeReasonCacheContent)]))
    ∧ (reason &&& ChangeReasonSpaceStructure = 0 →
       reason &&& (ChangeReasonSpaceHint ||| ChangeReasonSpaceItemsStructure) = 0 →
       reason &&& ChangeReasonSpaceItemsContent = 0 →
      CacheSpace.onSpaceChanged s reason = (s, [])) := by
  refine ⟨fun h1 => ?_, fun h1 h2 => ?_, fun h1 h2 h3 => ?_, fun h1 h2 h3 => ?_⟩
  · simp [CacheSpace.onSpaceChanged, CacheSpace.clear, CacheSpace.clearItemsCache,
      CacheSpace.invalidateItemsCache, guardAssertEvents, h, h1]
  · simp [CacheSpace.onSpaceChanged, CacheSpace.updateCacheItemsFactory,
      CacheItemFactory.updateSchema, CacheItem.invalidateCacheView, h1, h2]
  · simp [CacheSpace.onSpaceChanged, h1, h2, h3]
  · simp [CacheSpace.onSpaceChanged, h1, h2, h3]

/-- Witness for C4 on the SpaceStructure branch at a concrete state. -/
theorem onSpaceChanged_classification_witness :
    CacheSpace.onSpaceChanged exampleState ChangeReasonSpaceStructure =
      ({ exampleState with items := [], itemsCacheInvalid := true },
       [Event.cacheChanged ChangeReasonCacheContent]) :=
  (onSpaceChanged_classification exampleState ChangeReasonSpaceStructure rfl).1
    (by decide)

/-- Counterexample for C7: at a concrete state whose guard is not set, a
visitor running under forEachCacheItem calls clear while the iteration is
in progress; the clear goes through undetected: its events hold the
cacheChanged emission and no failed assertion. -/
theorem forEachCacheItem_clear_goes_undetected :
    (CacheSpace.forEachCacheItem stateOneItem clearingVisitor (stateOneItem, [])).2.2
        = [Event.cacheChanged ChangeReasonCacheContent]
    ∧ Event.assertFail ∉
        (CacheSpace.forEachCacheItem stateOneItem clearingVisitor (stateOneItem, [])).2.2 := by
  refine ⟨rfl, ?_⟩
  decide

/-- Amended C7: a clear (or an effective setWindow) trips the debug
assertion on the cacheIsInUse guard exactly when the guard is set at the
moment of the call; forEachCacheItem itself never sets the guard (only
draw, tryActivateControllers and tooltipByPoint do), so the detection
covers visitors running under those entry points and not visitors invoked
through a bare forEachCacheItem. -/
theorem clear_setWindow_detection_iff_guard (s : CacheSpaceState) (w : QRect)
    (hw : s.window ≠ w) :
    (Event.assertFail ∈ (CacheSpace.clear s).2 ↔ s.cacheIsInUse = true)
    ∧ (Event.assertFail ∈ (CacheSpace.setWindow s w).2 ↔ s.cacheIsInUse = true) := by
  cases hc : s.cacheIsInUse <;>
    simp [CacheSpace.clear, CacheSpace.clearItemsCache, CacheSpace.invalidateItemsCache,
      CacheSpace.setWindow, guardAssertEvents, hw, hc]

/-- Witness for the amended C7: with the guard set, as it is inside draw,
clear is detected. -/
theorem clear_setWindow_detection_iff_guard_witness :
    Event.assertFail ∈ (CacheSpace.clear stateInUse).2 :=
  ((clear_setWindow_detection_iff_guard stateInUse ⟨9, 9, 9, 9⟩ (by decide)).1).mpr rfl

/-- Painting a list of items records no painter save and no restore. -/
theorem drawItemsOps_no_save_restore (l : List CacheItem) :
    ((drawItemsOps l).1.filter PaintOp.isSave) = []
    ∧ ((drawItemsOps l).1.filter PaintOp.isRestore) = [] := by
  induction l with
  | nil => simp [drawItemsOps]
  | cons it rest ih =>
    cases h : it.throwsOnDraw <;>
      simp [drawItemsOps, h, PaintOp.isSave, PaintOp.isRestore, ih.1, ih.2]

/-- Counterexample for C3: at a concrete state holding an item whose draw
raises, the exception propagates out of draw and the recorded painter
trace holds one save and no matching restore. -/
theorem draw_restore_skipped_on_exception :
    (CacheSpace.draw stateThrowingItem).ok = false
    ∧ ((CacheSpace.draw stateThrowingItem).trace.filter PaintOp.isSave).length = 1
    ∧ ((CacheSpace.draw stateThrowingItem).trace.filter PaintOp.isRestore).length = 0 := by
  refine ⟨rfl, ?_, ?_⟩ <;> decide

/-- Amended C3: on every execution of draw in which no exception
propagates (painting every cache item succeeds), the painter trace is
balanced: it holds exactly as many restores as saves. -/
theorem draw_save_restore_balanced_when_no_exception (s : CacheSpaceState)
    (h : (CacheSpace.draw s).ok = true) :
    ((CacheSpace.draw s).trace.filter PaintOp.isSave).length
      = ((CacheSpace.draw s).trace.filter PaintOp.isRestore).length := by
  have hops := drawItemsOps_no_save_restore
    ((CacheSpace.validateItemsCache s).items.map CacheItem.validateCacheView)
  simp only [CacheSpace.draw] at h ⊢
  simp [h, List.filter_append, hops.1, hops.2, PaintOp.isSave, PaintOp.isRestore]

/-- Witness for the amended C3 at a concrete state whose items all paint. -/
theorem draw_save_restore_balanced_when_no_exception_witness :
    ((CacheSpace.draw exampleState).trace.filter PaintOp.isSave).length
      = ((CacheSpace.draw exampleState).trace.filter PaintOp.isRestore).length :=
  draw_save_restore_balanced_when_no_exception exampleState rfl

/-- The last visited view over an appended traversal segment. -/
theorem lastView_append (o : Option CacheView) (xs ys : List CacheView) :
    lastView o (xs ++ ys) = lastView (lastView o xs) ys := by
  induction xs generalizing o with
  | nil => rfl
  | cons x xs ih => simp [lastView, ih]

/-- Tagging an appended traversal segment splits at the segment border,
with the view index advanced by the length of the first segment. -/
theorem tagViews_append (k j : Nat) (xs ys : List CacheView) :
    tagViews k j (xs ++ ys) = tagViews k j xs ++ tagViews k (j + xs.length) ys := by
  induction xs generalizing j with
  | nil => simp [tagViews]
  | cons x xs ih =>
    simp only [List.cons_append, tagViews, List.append_eq, ih, List.length_cons]
    have hj : j + 1 + xs.length = j + (xs.length + 1) := by omega
    rw [hj]

mutual
/-- Walking one view tree with the wrapped logging visitor never stops,
appends exactly the tagged preorder of the tree to the log (item index
constant, view indices consecutive from the entry value), advances the
view index by the node count and leaves the last visited node in the
info record. -/
theorem viewLog_tree : ∀ (v : CacheView) (info : IterateInfo)
    (acc : List (Nat × Nat × Nat)),
    CacheView.forEachCacheView (CacheSpace.viewVisitorWrapped logVisitor)
        (info, acc) v
      = (true,
         ({ info with cacheView := lastView info.cacheView v.preorder,
                      cacheViewIndex := info.cacheViewIndex + v.preorder.length },
          acc ++ tagViews info.cacheItemIndex info.cacheViewIndex v.preorder))
  | .node i cs, info, acc => by
    obtain ⟨ii, ik, iv, ij⟩ := info
    have hc := viewLog_children cs ⟨ii, ik, some (CacheView.node i cs), ij + 1⟩
      (acc ++ [(ik, ij, i)])
    simp only [CacheView.forEachCacheView, CacheSpace.viewVisitorWrapped, logVisitor,
      infoViewId, CacheView.rootId] at hc ⊢
    simp only [hc]
    simp [CacheView.preorder, lastView, tagViews, CacheView.rootId, List.append_assoc]
    omega

/-- Walking a children list with the wrapped logging visitor, continuing
the bookkeeping of the tree lemma. -/
theorem viewLog_children : ∀ (cs : CacheViewChildren) (info : IterateInfo)
    (acc : List (Nat × Nat × Nat)),
    CacheView.forEachChildren (CacheSpace.viewVisitorWrapped logVisitor)
        (info, acc) cs
      = (true,
         ({ info with cacheView := lastView info.cacheView cs.preorderAll,
                      cacheViewIndex := info.cacheViewIndex + cs.preorderAll.length },
          acc ++ tagViews info.cacheItemIndex info.cacheViewIndex cs.preorderAll))
  | .nil, info, acc => by
    obtain ⟨ii, ik, iv, ij⟩ := info
    simp [CacheView.forEachChildren, CacheViewChildren.preorderAll, tagViews, lastView]
  | .cons c cs, info, acc => by
    obtain ⟨ii, ik, iv, ij⟩ := info
    have h1 := viewLog_tree c ⟨ii, ik, iv, ij⟩ acc
    have h2 := viewLog_children cs
      ⟨ii, ik, lastView iv c.preorder, ij + c.preorder.length⟩
      (acc ++ tagViews ik ij c.preorder)
    simp only [CacheView.forEachChildren, h1, h2, CacheViewChildren.preorderAll]
    simp [lastView_append, tagViews_append, List.length_append, List.append_assoc]
    omega
end

/-- Folding the wrapped logging visitor over a list of cache items from an
arbitrary entry info record: the iteration completes and appends exactly
the expected log starting at the entry item index; the entry view index
and the stale item and view fields are irrelevant because each item resets
them. -/
theorem itemsLog : ∀ (items : List CacheItem) (ji : Option CacheItem)
    (jv : Option CacheView) (jj k : Nat) (acc : List (Nat × Nat × Nat)),
    (forEachCacheItemStateful (CacheSpace.itemVisitorWrapped logVisitor)
        (⟨ji, k, jv, jj⟩, acc) items).1 = true
    ∧ (forEachCacheItemStateful (CacheSpace.itemVisitorWrapped logVisitor)
        (⟨ji, k, jv, jj⟩, acc) items).2.2 = acc ++ expectedViewLog k items
  | [], ji, jv, jj, k, acc => by
    simp [forEachCacheItemStateful, expectedViewLog]
  | it :: rest, ji, jv, jj, k, acc => by
    rcases hv : CacheItem.cacheView it with _ | root
    · have ih := itemsLog rest (some it) jv 0 (k + 1) acc
      simp [forEachCacheItemStateful, CacheSpace.itemVisitorWrapped, hv,
        expectedViewLog, ih.1, ih.2]
    · have h1 := viewLog_tree root ⟨some it, k, jv, 0⟩ acc
      have ih := itemsLog rest (some it) (lastView jv root.preorder)
        root.preorder.length (k + 1) (acc ++ tagViews k 0 root.preorder)
      simp [forEachCacheItemStateful, CacheSpace.itemVisitorWrapped, hv, h1,
        expectedViewLog, ih.1, ih.2, List.append_assoc]

/-- Walking any view tree with the wrapped stopping visitor halts on the
very first node with one recorded invocation. -/
theorem viewStop_tree (v : CacheView) (info : IterateInfo) (n : Nat) :
    CacheView.forEachCacheView (CacheSpace.viewVisitorWrapped stopVisitor)
        (info, n) v
      = (false,
         ({ info with cacheView := some v,
                      cacheViewIndex := info.cacheViewIndex + 1 }, n + 1)) := by
  cases v with
  | node i cs =>
    simp [CacheView.forEachCacheView, CacheSpace.viewVisitorWrapped, stopVisitor]

/-- Folding the wrapped stopping visitor over a list of cache items in
which some item has a built view: the iteration halts with overall result
false after exactly one visitor invocation. -/
theorem itemsStop : ∀ (items : List CacheItem) (ji : Option CacheItem)
    (jv : Option CacheView) (jj k n : Nat),
    (∃ it ∈ items, it.viewBuilt = true) →
    (forEachCacheItemStateful (CacheSpace.itemVisitorWrapped stopVisitor)
        (⟨ji, k, jv, jj⟩, n) items).1 = false
    ∧ (forEachCacheItemStateful (CacheSpace.itemVisitorWrapped stopVisitor)
        (⟨ji, k, jv, jj⟩, n) items).2.2 = n + 1
  | [], _, _, _, _, _, h => absurd h (by simp)
  | it :: rest, ji, jv, jj, k, n, h => by
    cases hb : it.viewBuilt with
    | true =>
      have h1 := viewStop_tree it.viewTemplate ⟨some it, k, jv, 0⟩ n
      simp [forEachCacheItemStateful, CacheSpace.itemVisitorWrapped,
        CacheItem.cacheView, hb, h1]
    | false =>
      have hr : ∃ x ∈ rest, x.viewBuilt = true := by
        rcases h with ⟨x, hx, hxb⟩
        rcases List.mem_cons.mp hx with hx1 | hx2
        · exact absurd hxb (by simp [hx1, hb])
        · exact ⟨x, hx2, hxb⟩
      have ih := itemsStop rest (some it) jv 0 (k + 1) n hr
      simp [forEachCacheItemStateful, CacheSpace.itemVisitorWrapped,
        CacheItem.cacheView, hb, ih.1, ih.2]

/-- C8: over a full forEachCacheView traversal the recorded indices are
exactly the expected ones: the item index of every visit equals the number
of cache items completed before the current one (advancing by one per
item, built view or not), and the view index restarts at zero for each
item and advances by one per visited view node; moreover a visitor that
returns false halts the whole traversal after that single visit and the
overall result is false. -/
theorem forEachCacheView_index_contract (s : CacheSpaceState) :
    CacheSpace.forEachCacheView s logVisitor [] = (true, expectedViewLog 0 s.items)
    ∧ ((∃ it ∈ s.items, it.viewBuilt = true) →
        CacheSpace.forEachCacheView s stopVisitor 0 = (false, 1)) := by
  constructor
  · have h := itemsLog s.items none none 0 0 []
    simp only [CacheSpace.forEachCacheView, CacheSpace.forEachCacheItem]
    rw [Prod.ext_iff]
    exact ⟨h.1, by simpa using h.2⟩
  · intro hex
    have h := itemsStop s.items none none 0 0 0 hex
    simp only [CacheSpace.forEachCacheView, CacheSpace.forEachCacheItem]
    rw [Prod.ext_iff]
    exact ⟨h.1, h.2⟩

/-- Witness for C8 at a concrete state holding an item without a view and
an item with a three node view tree. -/
theorem forEachCacheView_index_contract_witness :
    CacheSpace.forEachCacheView exampleState stopVisitor 0 = (false, 1) :=
  (forEachCacheView_index_contract exampleState).2
    ⟨itemWithTree, by simp [exampleState], rfl⟩
